import Mathlib

/-!
Shallow embedding of the family-archive-vault core, translated from
`src/services/worker/` (worker.py, pipeline.py, config.py, db.py) and
`src/intake_webapp/main.py`.  Machine-level I/O (Google Drive, SQLite, R2,
the ML enrichers, hashing libraries) is abstracted into explicit function
parameters gathered in an environment record; SQL tables become Lean lists
kept in rowid (insertion) order, which is the scan order of the unordered
SELECT statements the code issues.
-/

namespace Vault

/-! ## Worker configuration (src/services/worker/config.py)

The values are the defaults of the `os.getenv` lookups. -/

def MAX_VIDEO_TRANSCRIBE_MINUTES : Nat := 8

def PHASH_DUPLICATE_THRESHOLD : Nat := 6

def MIN_FREE_DISK_GB : Nat := 30

def MAX_BACKLOG_ITEMS : Nat := 5000

/-! ## Data model (src/services/worker/db.py, assets / duplicates tables)

Only the columns the pipeline logic reads or branches on are kept; the
remaining columns of the `assets` table (contributor_token, batch_id,
original_filename, size_bytes, exif fields, decade, caption, refs,
timestamps) are written once at insert and never consulted by the worker
logic under verification, so they are omitted from the row type. -/

structure Asset where
  assetId : Nat
  driveFileId : String
  mime : Option String
  status : String
  sha256 : String
  phash : Option String
  duplicateOf : Option Nat
  deriving Repr, DecidableEq

/-- One row of the `duplicates` table (db.py lines 109-114). -/
structure DupLink where
  assetId : Nat
  duplicateOf : Nat
  method : String
  deriving Repr, DecidableEq

/-- The worker-visible mutable state: the `assets` and `duplicates` tables
(in rowid order) plus the append-only per-file error log files that
`record_error` (worker.py lines 60-64) writes under `logs/errors/`. -/
structure WorkerState where
  assets : List Asset
  duplicates : List DupLink
  errorLogs : List String
  deriving Repr, DecidableEq

def emptyState : WorkerState := ⟨[], [], []⟩

/-- File metadata as listed from the Drive inbox (`file_info` in worker.py):
id, name, mimeType, and the blob's bytes (abstracted to a list). -/
structure FileMeta where
  driveId : String
  name : String
  mime : Option String
  bytes : List Nat
  deriving Repr, DecidableEq

/-- Holding folder ids of the Drive schema (`load_drive_schema`): the worker
only looks up these keys of the schema dict. -/
structure DriveSchema where
  PROCESSING : String
  HOLDING_NEEDS_REVIEW : String
  HOLDING_TRANSCRIBE_LATER : String
  HOLDING_DUPLICATES : String
  deriving Repr, DecidableEq

/-- External collaborators of the pipeline, abstracted as pure functions on
the file bytes:
* `sha256F`:  hashlib sha256 hexdigest of the streamed bytes (pipeline.py
  `compute_sha256`), a deterministic function of the content;
* `phashF`: result of `compute_phash` when invoked, i.e. the imagehash
  perceptual hash rendered as a hex string, `none` when PIL/imagehash are
  unavailable or the image is corrupt (pipeline.py lines 18-29);
* `ffprobeDuration`: `float(ffprobe_info(path)["format"]["duration"])`, `0`
  when ffprobe fails or reports nothing (pipeline.py lines 174-179);
* `whisper`: `none` models the `faster_whisper` import failing
  (pipeline.py lines 169-172), otherwise the loaded model's transcription
  of the file (the except branch that yields an empty segment list is a
  possible value of the function);
* `fails`: whether the per-file pipeline pass raises an unrecoverable
  exception (drive move/download or hashing I/O) before the first database
  write, which `run_once` catches (worker.py lines 323-327). -/
structure Env where
  sha256F : List Nat → String
  phashF : List Nat → Option String
  ffprobeDuration : List Nat → ℚ
  whisper : Option (List Nat → List String)
  fails : FileMeta → Bool

/-! ## Pipeline stages -/

/-- Python's `str.startswith(pre)` is a character-prefix test; the guards
below also carry the `mime_type and ...` truthiness check (a `None` mime
fails the guard). -/
def mimeStarts (pre : String) : Option String → Bool
  | some m => pre.toList.isPrefixOf m.toList
  | none => false

/-- Mime-type guard `mime_type and mime_type.startswith("image/")`. -/
def isImage : Option String → Bool := mimeStarts "image/"

/-- Mime-type guard `mime_type and mime_type.startswith("video/")`. -/
def isVideo : Option String → Bool := mimeStarts "video/"

/-- Mime-type guard `mime_type and mime_type.startswith("audio/")`. -/
def isAudio : Option String → Bool := mimeStarts "audio/"

/-- pipeline.py `run_transcription` (lines 168-199): `none` when the
whisper import fails, `none` when the probed duration exceeds
`MAX_VIDEO_TRANSCRIBE_MINUTES * 60` (the duration guard: the model is never
loaded in that case), otherwise the model's segments. -/
def run_transcription (env : Env) (b : List Nat) : Option (List String) :=
  match env.whisper with
  | none => none
  | some model =>
    if env.ffprobeDuration b > ((MAX_VIDEO_TRANSCRIBE_MINUTES * 60 : Nat) : ℚ) then none
    else some (model b)

/-- worker.py line 173: `sum(c1 != c2 for c1, c2 in zip(phash, row["phash"]))`,
the count of positions where the two phash hex strings differ, over the
common prefix that `zip` keeps. -/
def charHamming (p q : String) : Nat :=
  ((p.toList.zip q.toList).filter (fun cd => cd.1 != cd.2)).length

/-- worker.py line 167: `SELECT asset_id FROM assets WHERE sha256 = ?`
followed by `fetchone()` — the first row in scan (rowid) order. -/
def findExact (h : String) (assets : List Asset) : Option Nat :=
  (assets.find? (fun a => a.sha256 == h)).map (fun a => a.assetId)

/-- worker.py lines 170-181: scan `SELECT asset_id, phash FROM assets WHERE
phash IS NOT NULL` in rowid order and return the first asset whose phash is
within character distance 6 of `p` (the threshold is the literal `6` at
line 176; `PHASH_DUPLICATE_THRESHOLD` from config.py is not consulted). -/
def findNearMatch (p : String) : List Asset → Option Nat
  | [] => none
  | a :: rest =>
    match a.phash with
    | none => findNearMatch p rest
    | some q => if charHamming p q ≤ 6 then some a.assetId else findNearMatch p rest

/-- Outcome of one `process_asset` call: the database state after its
commits, the final `status` value inserted into the asset row, and the
holding folder passed to the final `move_file(service, drive_id,
holding_folder)` (worker.py line 293). -/
structure ProcOutcome where
  state : WorkerState
  status : String
  holding : String
  assetId : Nat
  deriving Repr, DecidableEq

/-- worker.py line 134: `compute_phash(local_path) if mime_type and
mime_type.startswith("image/") else None`. -/
def phashOf (env : Env) (f : FileMeta) : Option String :=
  if isImage f.mime then env.phashF f.bytes else none

/-- worker.py lines 157-164: the status/holding pair before the dedup
block.  `transcript_segments` is the transcription result for video/audio
mime types and `None` otherwise; status starts as `needs_review` (line
159) and becomes `transcribe_later` exactly when the transcription result
is `None` and the mime type is video (line 162 — audio is not checked
there). -/
def preDedupRouting (env : Env) (schema : DriveSchema) (f : FileMeta) :
    String × String :=
  let transcript :=
    if isVideo f.mime || isAudio f.mime then run_transcription env f.bytes else none
  if transcript == none && isVideo f.mime then
    ("transcribe_later", schema.HOLDING_TRANSCRIBE_LATER)
  else
    ("needs_review", schema.HOLDING_NEEDS_REVIEW)

/-- worker.py `process_asset` (lines 121-300), with the Drive and
enrichment side effects other than the routing decision elided (thumbnail,
faces, caption, clip and transcript sidecar writes, and the `media` /
`metadata` mirror rows do not feed back into status, dedup or routing).

The uuid4 asset id is modelled as the current row count, which is fresh
for states built from `emptyState` by the worker itself.

The imperative dedup block (lines 166-185) overwrite-assigns
`duplicate_of`/`status`/`holding_folder`; its three reachable outcomes are
written out as the three match branches below:
* exact sha256 hit (line 167 fetchone): the near scan is skipped (guard
  `if not duplicate_of and phash`, line 169), and `if duplicate_of:`
  (lines 182-185) sets the duplicate status/folder and inserts one
  `duplicates` row with method `"sha256"`;
* near hit (first scanned asset within character distance 6, lines
  170-181): a `duplicates` row with method `"phash"` is inserted inside
  the loop, and then `if duplicate_of:` also runs, inserting a second
  `duplicates` row with method `"sha256"` for the same pair;
* no hit: no row inserted, routing stays as `preDedupRouting` decided.
Lines 187-213 insert the asset row with the final status and duplicate_of;
line 293 moves the blob to the final holding folder. -/
def process_asset (env : Env) (schema : DriveSchema) (s : WorkerState)
    (f : FileMeta) : ProcOutcome :=
  let assetId := s.assets.length
  let sha := env.sha256F f.bytes
  let phash := phashOf env f
  let stHold0 := preDedupRouting env schema f
  let noDup : ProcOutcome :=
    ⟨⟨s.assets ++ [⟨assetId, f.driveId, f.mime, stHold0.1, sha, phash, none⟩],
      s.duplicates, s.errorLogs⟩, stHold0.1, stHold0.2, assetId⟩
  match findExact sha s.assets with
  | some d =>
    ⟨⟨s.assets ++ [⟨assetId, f.driveId, f.mime, "possible_duplicates", sha, phash, some d⟩],
      s.duplicates ++ [⟨assetId, d, "sha256"⟩], s.errorLogs⟩,
     "possible_duplicates", schema.HOLDING_DUPLICATES, assetId⟩
  | none =>
    match phash with
    | some p =>
      match findNearMatch p s.assets with
      | some d =>
        ⟨⟨s.assets ++ [⟨assetId, f.driveId, f.mime, "possible_duplicates", sha, phash, some d⟩],
          s.duplicates ++ [⟨assetId, d, "phash"⟩, ⟨assetId, d, "sha256"⟩], s.errorLogs⟩,
         "possible_duplicates", schema.HOLDING_DUPLICATES, assetId⟩
      | none => noDup
    | none => noDup

/-- The `try: process_asset(...)` body of the per-file loop: when the pass
raises an unrecoverable exception before its first database commit the
state is unchanged and the error propagates. -/
def process_asset_try (env : Env) (schema : DriveSchema) (s : WorkerState)
    (f : FileMeta) : Except Unit ProcOutcome :=
  if env.fails f then Except.error () else Except.ok (process_asset env schema s f)

/-- worker.py `record_error` (lines 60-64): append one line to
`logs/errors/<file_id>.log`; no table is touched. -/
def record_error (s : WorkerState) (fileId : String) : WorkerState :=
  ⟨s.assets, s.duplicates, s.errorLogs ++ [fileId]⟩

/-- worker.py `asset_exists` (lines 105-107). -/
def asset_exists (s : WorkerState) (driveId : String) : Bool :=
  s.assets.any (fun a => a.driveFileId == driveId)

/-- Rows with `status = 'processing'` counted by `has_backpressure`. -/
def countProcessing (s : WorkerState) : Nat :=
  (s.assets.filter (fun a => a.status == "processing")).length

/-- worker.py `has_backpressure` (lines 43-57): free disk in GiB
(`free / 1024**3`) below `MIN_FREE_DISK_GB`, or strictly more than
`MAX_BACKLOG_ITEMS` assets in status `processing`.  Over exact arithmetic
the disk comparison `free / 1024**3 < MIN_FREE_DISK_GB` is equivalent to
the integer inequality used here (see `diskCheck_eq_div_form`). -/
def has_backpressure (freeBytes : Nat) (s : WorkerState) : Bool :=
  decide (freeBytes < MIN_FREE_DISK_GB * 1024 ^ 3)
    || decide (countProcessing s > MAX_BACKLOG_ITEMS)

/-- The body of the per-file loop of `run_once` (worker.py lines 320-327):
skip files that already have an asset row for their drive file id,
otherwise process, turning a raised exception into a `record_error`
append. -/
def processFile (env : Env) (schema : DriveSchema) (s : WorkerState)
    (f : FileMeta) : WorkerState :=
  if asset_exists s f.driveId then s
  else
    match process_asset_try env schema s f with
    | Except.ok out => out.state
    | Except.error _ => record_error s f.driveId

/-- worker.py `run_once` (lines 303-329): return untouched under
backpressure, otherwise walk the listed files with `processFile`.
`files` is the concatenation of the contributor-folder listings; manifest
reconciliation only fills attribution columns that are not part of the
verified state. -/
def run_once (env : Env) (schema : DriveSchema) (freeBytes : Nat)
    (files : List FileMeta) (s0 : WorkerState) : WorkerState :=
  if has_backpressure freeBytes s0 then s0
  else files.foldl (processFile env schema) s0

/-! ## Intake webapp (src/intake_webapp/main.py)

Configuration defaults of the `os.getenv` lookups (lines 33-35). -/

def MAX_FILES_PER_BATCH : Nat := 100

def RATE_LIMIT_PER_MIN : Nat := 120

/-! ### Rate limiting (lines 275-285)

The process-global `_RATE_LIMIT` dict maps a client IP to the list of
timestamps of its previously admitted requests.  The claims quantify over
one client IP, and entries of distinct IPs never interact, so the model
carries one IP's window.  Timestamps (`time.time()` values) are modelled
as integers; the middleware only ever subtracts and order-compares them,
so its behaviour is the same over any ordered time scale. -/

/-- Line 280: `window = [t for t in window if now - t < 60]`. -/
def pruneWindow (window : List ℤ) (now : ℤ) : List ℤ :=
  window.filter (fun t => now - t < 60)

/-- main.py `rate_limit_middleware` (lines 275-285) for one IP.  `handler`
is the value `call_next(request)` would produce; a `none` in the first
component is the 429 `JSONResponse`, returned without awaiting the handler.
The second component is the IP's stored window afterwards: on rejection
neither the append nor the `_RATE_LIMIT[ip] = window` store runs, so the
stored window is unchanged; on admission the pruned window plus `now` is
stored. -/
def rate_limit_middleware {α : Type} (handler : α) (window : List ℤ)
    (now : ℤ) : Option α × List ℤ :=
  let w := pruneWindow window now
  if RATE_LIMIT_PER_MIN ≤ w.length then (none, window)
  else (some handler, w ++ [now])

/-- The stored window of one IP after the middleware has seen the given
sequence of request timestamps (in arrival order), starting from no entry
(`_RATE_LIMIT.get(ip, [])`). -/
def processRequests (reqs : List ℤ) : List ℤ :=
  reqs.foldl (fun w t => (rate_limit_middleware () w t).2) []

/-! ### Contributors and batch finish -/

/-- One row of the `contributors` table the webapp creates (lines 81-94);
only the columns `get_contributor_by_token` and `api_batch_finish` read. -/
structure Contributor where
  token : String
  displayName : String
  status : String
  deriving Repr, DecidableEq

/-- main.py `get_contributor_by_token` (lines 110-125): `SELECT * FROM
contributors WHERE token = ? AND status = 'active'`, first row. -/
def get_contributor_by_token (contribs : List Contributor)
    (tok : String) : Option Contributor :=
  contribs.find? (fun c => c.token == tok && c.status == "active")

/-- Request payload of `POST /api/batch/finish` (the fields the handler
reads).  A file entry is kept opaque: the handler stores `files` verbatim
in the manifest. -/
structure FinishPayload where
  token : Option String
  batchId : String
  files : List String
  decade : Option String
  event : Option String
  notes : Option String
  voiceNote : Option String
  deriving Repr, DecidableEq

/-- The manifest document `api_batch_finish` builds (lines 739-749),
without the wall-clock `created_at`. -/
structure Manifest where
  batchId : String
  contributorToken : Option String
  contributorDisplayName : String
  decade : Option String
  event : Option String
  notes : Option String
  files : List String
  voiceNote : Option String
  deriving Repr, DecidableEq

/-- The R2 bucket as seen by the batch-finish handler: the sequence of
manifest objects written (key/document pairs, in write order), plus
whether the next `put_object` call raises (a transient storage failure,
the `except` at lines 761-763). -/
structure R2State where
  objects : List (String × Manifest)
  putFails : Bool
  deriving Repr, DecidableEq

/-- `s3.put_object` for a manifest: `none` models the call raising. -/
def put_object (r2 : R2State) (key : String) (m : Manifest) : Option R2State :=
  if r2.putFails then none else some ⟨r2.objects ++ [(key, m)], r2.putFails⟩

/-- main.py `update_upload_count` (lines 192-209): read the current count
(0 when absent), add the increment, upsert, return the new count. -/
def update_upload_count (counts : List (String × Nat)) (tok : String)
    (inc : Nat) : Nat × List (String × Nat) :=
  let current := match counts.find? (fun p => p.1 == tok) with
    | some p => p.2
    | none => 0
  let newCount := current + inc
  if counts.any (fun p => p.1 == tok) then
    (newCount, counts.map (fun p => if p.1 == tok then (p.1, newCount) else p))
  else
    (newCount, counts ++ [(tok, newCount)])

/-- Responses of `POST /api/batch/finish`: 404 on unknown token, 400
"Too many files in batch" past the cap, otherwise 200 whose message embeds
the new total upload count. -/
inductive FinishResult where
  | invalidToken
  | tooManyFiles
  | ok (total : Nat)
  deriving Repr, DecidableEq

/-- main.py `api_batch_finish` (lines 725-770): token lookup, file-count
cap, manifest written to `_manifests/<batch_id>.json`, with a raising
`put_object` swallowed (the batch still acknowledges, comment at line 763),
then the upload count update and the 200 acknowledgement. -/
def api_batch_finish (contribs : List Contributor) (r2 : R2State)
    (counts : List (String × Nat)) (payload : FinishPayload) :
    FinishResult × R2State × List (String × Nat) :=
  let tok := payload.token.getD ""
  match get_contributor_by_token contribs tok with
  | none => (FinishResult.invalidToken, r2, counts)
  | some info =>
    if payload.files.length > MAX_FILES_PER_BATCH then
      (FinishResult.tooManyFiles, r2, counts)
    else
      let manifest : Manifest :=
        ⟨payload.batchId, payload.token, info.displayName, payload.decade,
         payload.event, payload.notes, payload.files, payload.voiceNote⟩
      let key := "_manifests/" ++ payload.batchId ++ ".json"
      let r2' := match put_object r2 key manifest with
        | some r => r
        | none => r2
      let totalCounts := update_upload_count counts tok payload.files.length
      (FinishResult.ok totalCounts.1, r2', totalCounts.2)

/-! ### Chunk upload (lines 628-717)

`_UPLOAD_SESSIONS` (line 48) is a process-global in-memory dict from
session id to the multipart-session record created by `api_upload_init`
(lines 454-460); it is modelled as an association list.  The raw bytes of
the chunk body only flow into `upload_part`; the remote store's behaviour
is abstracted by the `uploadPartOk`/`etag`/`completeOk` parameters. -/

/-- One recorded part: `{"PartNumber": n, "ETag": e}`. -/
structure Part where
  partNumber : Nat
  etag : String
  deriving Repr, DecidableEq

/-- A `_UPLOAD_SESSIONS` record for a multipart upload (lines 454-460). -/
structure UploadSession where
  uploadId : String
  objectKey : String
  sizeBytes : Nat
  parts : List Part
  deriving Repr, DecidableEq

/-- A parsed `Content-Range: bytes start-end/total` header.  The handler's
two `try` blocks (lines 642-652 and 683-709) treat an absent or malformed
header alike, so the model takes `Option ContentRange`: `none` covers both. -/
structure ContentRange where
  start : Nat
  stop : Nat
  total : Nat
  deriving Repr, DecidableEq

/-- Possible answers of `PUT /api/upload/chunk`. `resume` is the `308
{nextOffset}` answer of the spec's resumable protocol (spec section 6);
it is part of the response vocabulary so that its absence is a provable
statement about the handler, which never constructs it. -/
inductive ChunkResponse where
  | badRequest
  | ok (partNumber : Nat)
  | complete (objectKey : String)
  | serverError
  | resume (nextOffset : Nat)
  deriving Repr, DecidableEq

/-- Line 649: 5 MiB chunks for the part-number computation. -/
def CHUNK_SIZE : Nat := 5 * 1024 * 1024

def lookupSession (sessions : List (String × UploadSession))
    (sid : String) : Option UploadSession :=
  (sessions.find? (fun p => p.1 == sid)).map (fun p => p.2)

def storeSession (sessions : List (String × UploadSession)) (sid : String)
    (sess : UploadSession) : List (String × UploadSession) :=
  sessions.map (fun p => if p.1 == sid then (p.1, sess) else p)

def dropSession (sessions : List (String × UploadSession))
    (sid : String) : List (String × UploadSession) :=
  sessions.filter (fun p => p.1 != sid)

/-- main.py `api_upload_chunk` (lines 628-717).

* missing/unknown session id → 400 (line 636);
* part number: `start // (5 MiB) + 1` from the Content-Range, or
  `len(parts) + 1` when the header is absent or unparsable (lines 642-652);
* `upload_part` raising → 500, session untouched (lines 713-717;
  `uploadPartOk = false`);
* otherwise the part is appended to the session (lines 673-677);
* when the header parses and `end + 1 >= total`, the multipart upload is
  completed and the session deleted (lines 682-707); a raising
  `complete_multipart_upload` is swallowed and the handler falls through
  to the 200 ok answer (lines 708-711; `completeOk = false`);
* no branch inspects any committed offset, probes the store's received
  bytes, or answers `resume`. -/
def api_upload_chunk (uploadPartOk completeOk : Bool)
    (sessions : List (String × UploadSession)) (sessionId : Option String)
    (contentRange : Option ContentRange) (etag : String) :
    ChunkResponse × List (String × UploadSession) :=
  match sessionId with
  | none => (ChunkResponse.badRequest, sessions)
  | some sid =>
    match lookupSession sessions sid with
    | none => (ChunkResponse.badRequest, sessions)
    | some session =>
      let partNumber := match contentRange with
        | some cr => cr.start / CHUNK_SIZE + 1
        | none => session.parts.length + 1
      if uploadPartOk then
        let parts := session.parts ++ [⟨partNumber, etag⟩]
        let stored := storeSession sessions sid ⟨session.uploadId,
          session.objectKey, session.sizeBytes, parts⟩
        match contentRange with
        | some cr =>
          if cr.stop + 1 ≥ cr.total then
            if completeOk then
              (ChunkResponse.complete session.objectKey, dropSession stored sid)
            else
              (ChunkResponse.ok partNumber, stored)
          else
            (ChunkResponse.ok partNumber, stored)
        | none => (ChunkResponse.ok partNumber, stored)
      else
        (ChunkResponse.serverError, sessions)

/-! ## Derived observations used by the verification -/

/-- Number of asset rows recorded for one origin (drive) file id. -/
def countDriveId (s : WorkerState) (id : String) : Nat :=
  (s.assets.filter (fun a => a.driveFileId == id)).length

/-- Value of a lowercase hex digit, as produced by `str(imagehash.phash(img))`. -/
def hexVal (c : Char) : Nat :=
  if 'a' ≤ c then c.toNat - 87 else c.toNat - 48

/-- Number of differing bits between two 4-bit nibbles. -/
def nibbleBitDiff (a b : Nat) : Nat :=
  let x := Nat.xor a b
  x % 2 + x / 2 % 2 + x / 4 % 2 + x / 8 % 2

/-- Modelled from the spec: the spec (sections 3, 4.3, 4.4, 8) defines the
phash as a fixed-width bit vector of 64 bits and near-duplicate comparison
as the Hamming distance between those bit vectors.  This is the number of
differing bits between the two 64-bit vectors that a pair of 16-digit hex
phash strings encodes — the quantity `imagehash` itself uses for its
subtraction operator (and which `src/worker/main.py` line 203 and
`src/duplicate_detection.py` line 62 compute); it is NOT the quantity the
worker under test computes. -/
def specBitHamming (p q : String) : Nat :=
  ((p.toList.zip q.toList).map (fun cd => nibbleBitDiff (hexVal cd.1) (hexVal cd.2))).sum

/-! ## Concrete fixtures for witnesses and counterexamples -/

/-- A drive schema with distinguishable holding folder ids. -/
def schema0 : DriveSchema := ⟨"PROC", "REVIEW", "LATER", "DUPS"⟩

/-- Environment with no enrichers available and no failures. -/
def envPlain : Env := ⟨fun _ => "h", fun _ => none, fun _ => 0, none, fun _ => false⟩

/-- Environment whose per-file pipeline pass always raises. -/
def envFailing : Env := ⟨fun _ => "h", fun _ => none, fun _ => 0, none, fun _ => true⟩

/-- Environment for an over-duration video/audio file (481 s > 8 min)
with the whisper model importable, and a fixed sha256. -/
def envLongMedia : Env :=
  ⟨fun _ => "sh", fun _ => none, fun _ => 481, some (fun _ => ["seg"]), fun _ => false⟩

/-- Environment for the near-duplicate scenario: every file hashes to a
distinct sha256 (indexed by content) and phashes to
"ff00000000000000". -/
def envNear : Env :=
  ⟨fun b => "sha" ++ toString b.length, fun _ => some "ff00000000000000",
   fun _ => 0, none, fun _ => false⟩

/-- A video file listed in the inbox. -/
def fVid : FileMeta := ⟨"f1", "v.mp4", some "video/mp4", [3]⟩

/-- An audio file listed in the inbox. -/
def fAud : FileMeta := ⟨"fa", "a.mp3", some "audio/mpeg", [2]⟩

/-- An image file listed in the inbox (content of length 1, so
`envNear.sha256F` gives "sha1"). -/
def fImg : FileMeta := ⟨"f1", "b.jpg", some "image/jpeg", [1]⟩

/-- An already-stored video asset whose sha256 matches what
`envLongMedia` assigns to any bytes. -/
def aVid0 : Asset := ⟨0, "f0", some "video/mp4", "needs_review", "sh", none, none⟩

def sVid : WorkerState := ⟨[aVid0], [], []⟩

/-- An already-stored image asset with phash "0000000000000000" and a
sha256 ("sha0") that `envNear` gives to no nonempty content. -/
def aImg0 : Asset :=
  ⟨0, "f0", some "image/jpeg", "needs_review", "sha0", some "0000000000000000", none⟩

def sImg : WorkerState := ⟨[aImg0], [], []⟩

/-- A multipart upload session that has already received one 5 MiB part
(bytes 0 to 5242879) of a 12 MiB upload. -/
def sess1 : UploadSession := ⟨"up1", "obj1", 12582912, [⟨1, "e1"⟩]⟩

def contribs1 : List Contributor := [⟨"tok1", "Ann", "active"⟩]

def payload1 : FinishPayload := ⟨some "tok1", "b1", ["file1"], none, none, none, none⟩

/-! ## Helper lemmas -/

/-- The integer disk check of `has_backpressure` is the source's rational
comparison `free / 1024**3 < MIN_FREE_DISK_GB` in integer form. -/
theorem diskCheck_eq_div_form (freeBytes : Nat) :
    (freeBytes < MIN_FREE_DISK_GB * 1024 ^ 3)
      ↔ ((freeBytes : ℚ) / ((1024 : ℚ) ^ 3) < (MIN_FREE_DISK_GB : ℚ)) := by
  rw [div_lt_iff₀ (by positivity)]
  exact_mod_cast Iff.rfl

theorem prefix_head_eq {c₁ c₂ : Char} {t₁ t₂ l : List Char}
    (h₁ : List.isPrefixOf (c₁ :: t₁) l = true)
    (h₂ : List.isPrefixOf (c₂ :: t₂) l = true) : c₁ = c₂ := by
  cases l with
  | nil => simp [List.isPrefixOf] at h₁
  | cons a l' =>
    simp [List.isPrefixOf] at h₁ h₂
    exact h₁.1.trans h₂.1.symm

/-- A video mime type is not an image mime type. -/
theorem not_image_of_video (m : Option String) (h : isVideo m = true) :
    isImage m = false := by
  cases m with
  | none => rfl
  | some s =>
    cases hi : isImage (some s) with
    | false => rfl
    | true =>
      have h' : List.isPrefixOf ('v' :: "ideo/".toList) s.toList = true := h
      have hi' : List.isPrefixOf ('i' :: "mage/".toList) s.toList = true := hi
      exact absurd (prefix_head_eq h' hi') (by decide)

/-- An audio mime type is not an image mime type. -/
theorem not_image_of_audio (m : Option String) (h : isAudio m = true) :
    isImage m = false := by
  cases m with
  | none => rfl
  | some s =>
    cases hi : isImage (some s) with
    | false => rfl
    | true =>
      have h' : List.isPrefixOf ('a' :: "udio/".toList) s.toList = true := h
      have hi' : List.isPrefixOf ('i' :: "mage/".toList) s.toList = true := hi
      exact absurd (prefix_head_eq h' hi') (by decide)

/-- Equation for `process_asset` when the exact sha256 lookup hits. -/
theorem process_asset_exact (env : Env) (schema : DriveSchema)
    (s : WorkerState) (f : FileMeta) (d : Nat)
    (hex : findExact (env.sha256F f.bytes) s.assets = some d) :
    process_asset env schema s f =
      ⟨⟨s.assets ++ [⟨s.assets.length, f.driveId, f.mime, "possible_duplicates",
          env.sha256F f.bytes, phashOf env f, some d⟩],
        s.duplicates ++ [⟨s.assets.length, d, "sha256"⟩], s.errorLogs⟩,
       "possible_duplicates", schema.HOLDING_DUPLICATES, s.assets.length⟩ := by
  simp only [process_asset, hex]

/-- Equation for `process_asset` when the exact lookup misses and the near
scan hits. -/
theorem process_asset_near (env : Env) (schema : DriveSchema)
    (s : WorkerState) (f : FileMeta) (p : String) (d : Nat)
    (hex : findExact (env.sha256F f.bytes) s.assets = none)
    (hp : phashOf env f = some p)
    (hnear : findNearMatch p s.assets = some d) :
    process_asset env schema s f =
      ⟨⟨s.assets ++ [⟨s.assets.length, f.driveId, f.mime, "possible_duplicates",
          env.sha256F f.bytes, phashOf env f, some d⟩],
        s.duplicates ++ [⟨s.assets.length, d, "phash"⟩, ⟨s.assets.length, d, "sha256"⟩],
        s.errorLogs⟩,
       "possible_duplicates", schema.HOLDING_DUPLICATES, s.assets.length⟩ := by
  simp only [process_asset, hex, hp, hnear]

/-- Equation for `process_asset` when no duplicate is found. -/
theorem process_asset_noDup (env : Env) (schema : DriveSchema)
    (s : WorkerState) (f : FileMeta)
    (hex : findExact (env.sha256F f.bytes) s.assets = none)
    (hnear : ∀ p, phashOf env f = some p → findNearMatch p s.assets = none) :
    process_asset env schema s f =
      ⟨⟨s.assets ++ [⟨s.assets.length, f.driveId, f.mime,
          (preDedupRouting env schema f).1, env.sha256F f.bytes, phashOf env f, none⟩],
        s.duplicates, s.errorLogs⟩,
       (preDedupRouting env schema f).1, (preDedupRouting env schema f).2,
       s.assets.length⟩ := by
  cases hp : phashOf env f with
  | none => simp only [process_asset, hex, hp]
  | some p => simp only [process_asset, hex, hp, hnear p hp]

/-- The asset row `process_asset` appends always carries the processed
file's drive id. -/
theorem process_asset_assets_shape (env : Env) (schema : DriveSchema)
    (s : WorkerState) (f : FileMeta) :
    ∃ row : Asset, (process_asset env schema s f).state.assets = s.assets ++ [row]
      ∧ row.driveFileId = f.driveId := by
  cases hex : findExact (env.sha256F f.bytes) s.assets with
  | some d =>
    rw [process_asset_exact env schema s f d hex]
    exact ⟨_, rfl, rfl⟩
  | none =>
    cases hp : phashOf env f with
    | none =>
      rw [process_asset_noDup env schema s f hex (fun p h => by rw [hp] at h; cases h)]
      exact ⟨_, rfl, rfl⟩
    | some p =>
      cases hnear : findNearMatch p s.assets with
      | some d =>
        rw [process_asset_near env schema s f p d hex hp hnear]
        exact ⟨_, rfl, rfl⟩
      | none =>
        rw [process_asset_noDup env schema s f hex
          (fun q hq => by rw [hp] at hq; injection hq with h; rw [← h]; exact hnear)]
        exact ⟨_, rfl, rfl⟩

theorem processFile_skip (env : Env) (schema : DriveSchema) (s : WorkerState)
    (f : FileMeta) (h : asset_exists s f.driveId = true) :
    processFile env schema s f = s := by
  simp [processFile, h]

theorem processFile_error (env : Env) (schema : DriveSchema) (s : WorkerState)
    (f : FileMeta) (h1 : asset_exists s f.driveId = false)
    (h2 : env.fails f = true) :
    processFile env schema s f = record_error s f.driveId := by
  simp [processFile, process_asset_try, h1, h2]

theorem processFile_ok (env : Env) (schema : DriveSchema) (s : WorkerState)
    (f : FileMeta) (h1 : asset_exists s f.driveId = false)
    (h2 : env.fails f = false) :
    processFile env schema s f = (process_asset env schema s f).state := by
  simp [processFile, process_asset_try, h1, h2]

theorem run_once_no_bp (env : Env) (schema : DriveSchema) (freeBytes : Nat)
    (files : List FileMeta) (s0 : WorkerState)
    (h : has_backpressure freeBytes s0 = false) :
    run_once env schema freeBytes files s0 = files.foldl (processFile env schema) s0 := by
  simp [run_once, h]

/-- One `processFile` step preserves "at most one asset row per drive file
id": a file is only processed when `asset_exists` is false, and then
exactly one row carrying its drive id is appended. -/
theorem processFile_countDriveId_le (env : Env) (schema : DriveSchema)
    (s : WorkerState) (f : FileMeta) (h : ∀ id, countDriveId s id ≤ 1) :
    ∀ id, countDriveId (processFile env schema s f) id ≤ 1 := by
  intro id
  cases hex : asset_exists s f.driveId with
  | true => rw [processFile_skip env schema s f hex]; exact h id
  | false =>
    cases hfail : env.fails f with
    | true => rw [processFile_error env schema s f hex hfail]; exact h id
    | false =>
      rw [processFile_ok env schema s f hex hfail]
      obtain ⟨row, hrow, hid⟩ := process_asset_assets_shape env schema s f
      unfold countDriveId
      rw [hrow, List.filter_append, List.length_append]
      by_cases hcase : (row.driveFileId == id) = true
      · have hideq : f.driveId = id := by rw [← hid]; exact eq_of_beq hcase
        have hnone : ∀ a ∈ s.assets, ¬ ((a.driveFileId == id) = true) := by
          intro a ha hbeq
          have hany : s.assets.any (fun a => a.driveFileId == f.driveId) = true :=
            List.any_eq_true.mpr ⟨a, ha, by rw [hideq]; exact hbeq⟩
          rw [asset_exists] at hex
          rw [hex] at hany
          cases hany
        rw [List.filter_eq_nil_iff.mpr hnone]
        simp [hcase]
      · have hf : List.filter (fun a => a.driveFileId == id) [row] = [] := by
          simp [List.filter, hcase]
        rw [hf]
        simpa using h id

/-- The per-file loop preserves uniqueness of asset rows per drive id. -/
theorem foldl_processFile_inv (env : Env) (schema : DriveSchema) :
    ∀ (files : List FileMeta) (s : WorkerState),
    (∀ id, countDriveId s id ≤ 1) →
    ∀ id, countDriveId (files.foldl (processFile env schema) s) id ≤ 1 := by
  intro files
  induction files with
  | nil => intro s h; simpa using h
  | cons f fs ih =>
    intro s h
    rw [List.foldl_cons]
    exact ih _ (processFile_countDriveId_le env schema s f h)

/-- C5: processing the same origin (drive) file id twice — within one
cycle or across re-runs of the Worker Loop from any state satisfying the
invariant (in particular a state left by a crash mid-cycle) — never
creates two Asset records: `run_once` checks `asset_exists` before
processing and skips files whose drive file id already has a row, so at
most one asset row per origin file id ever exists. -/
theorem C5_idempotent_rerun (env : Env) (schema : DriveSchema)
    (freeBytes : Nat) (files : List FileMeta) (s0 : WorkerState)
    (h : ∀ id, countDriveId s0 id ≤ 1) :
    ∀ id, countDriveId (run_once env schema freeBytes files s0) id ≤ 1 := by
  cases hbp : has_backpressure freeBytes s0 with
  | true => intro id; simp only [run_once, hbp, if_true]; exact h id
  | false =>
    rw [run_once_no_bp env schema freeBytes files s0 hbp]
    exact foldl_processFile_inv env schema files s0 h

/-- Witness for C5: the same file listed twice in one cycle still yields
at most one asset row for its drive id. -/
theorem C5_witness :
    countDriveId (run_once envPlain schema0 68719476736 [fVid, fVid] emptyState) "f1" ≤ 1 :=
  C5_idempotent_rerun envPlain schema0 68719476736 [fVid, fVid] emptyState
    (fun id => by simp [countDriveId, emptyState]) "f1"

/-- C7: whenever free disk on the processing cache is below
`MIN_FREE_DISK_GB` or the count of assets in status `processing` exceeds
`MAX_BACKLOG_ITEMS`, `has_backpressure` reports backpressure and
`run_once` creates no Asset record that cycle (the state is returned
untouched), even if unprocessed files exist. -/
theorem C7_backpressure_blocks_intake (env : Env) (schema : DriveSchema)
    (freeBytes : Nat) (files : List FileMeta) (s0 : WorkerState)
    (h : freeBytes < MIN_FREE_DISK_GB * 1024 ^ 3
        ∨ countProcessing s0 > MAX_BACKLOG_ITEMS) :
    has_backpressure freeBytes s0 = true
      ∧ run_once env schema freeBytes files s0 = s0 := by
  have hb : has_backpressure freeBytes s0 = true := by
    unfold has_backpressure
    rw [Bool.or_eq_true, decide_eq_true_eq, decide_eq_true_eq]
    exact h
  exact ⟨hb, by simp [run_once, hb]⟩

/-- Witness for C7: with no free disk at all and an unprocessed file
listed, the gate closes and no asset is created. -/
theorem C7_witness :
    ((0 : Nat) < MIN_FREE_DISK_GB * 1024 ^ 3
      ∨ countProcessing emptyState > MAX_BACKLOG_ITEMS)
    ∧ (has_backpressure 0 emptyState = true
      ∧ run_once envPlain schema0 0 [fVid] emptyState = emptyState) :=
  ⟨Or.inl (by decide),
   C7_backpressure_blocks_intake envPlain schema0 0 [fVid] emptyState (Or.inl (by decide))⟩

/-- C6 (amended): when the per-file pipeline pass hits an unrecoverable
failure, `run_once` appends one entry to the per-file error log under
`logs/errors/` and leaves the asset tables untouched — in particular no
Asset record (with status `error` or any other) is persisted for the file,
which is therefore retried on a later cycle and never deleted. -/
theorem C6_error_logged_no_asset (env : Env) (schema : DriveSchema)
    (freeBytes : Nat) (f : FileMeta) (s0 : WorkerState)
    (hbp : has_backpressure freeBytes s0 = false)
    (hnew : asset_exists s0 f.driveId = false)
    (hfail : env.fails f = true) :
    run_once env schema freeBytes [f] s0 = record_error s0 f.driveId
    ∧ (run_once env schema freeBytes [f] s0).assets = s0.assets
    ∧ (run_once env schema freeBytes [f] s0).errorLogs = s0.errorLogs ++ [f.driveId] := by
  have h1 : run_once env schema freeBytes [f] s0 = record_error s0 f.driveId := by
    rw [run_once_no_bp env schema freeBytes [f] s0 hbp]
    rw [List.foldl_cons, List.foldl_nil]
    exact processFile_error env schema s0 f hnew hfail
  exact ⟨h1, by rw [h1]; rfl, by rw [h1]; rfl⟩

/-- Witness for C6 (amended): a concrete failing pass appends to the
error log and leaves the tables untouched. -/
theorem C6_witness :
    run_once envFailing schema0 68719476736 [fVid] emptyState
        = record_error emptyState "f1"
    ∧ (run_once envFailing schema0 68719476736 [fVid] emptyState).assets = []
    ∧ (run_once envFailing schema0 68719476736 [fVid] emptyState).errorLogs = ["f1"] := by
  have h := C6_error_logged_no_asset envFailing schema0 68719476736 fVid emptyState
    (by decide) (by decide) (by decide)
  exact ⟨h.1, h.2.1, h.2.2⟩

/-- Counterexample to C6 as stated: a file whose pipeline pass hits an
unrecoverable failure gets NO Asset record at all — in particular none
with status `error`; the failure is only recorded in the error log
(`record_error`, worker.py lines 60-64 and 323-327). -/
theorem C6_counterexample :
    ((run_once envFailing schema0 68719476736 [fVid] emptyState).assets.filter
        (fun a => a.status == "error")) = []
    ∧ (run_once envFailing schema0 68719476736 [fVid] emptyState).assets = []
    ∧ (run_once envFailing schema0 68719476736 [fVid] emptyState).errorLogs = ["f1"] := by
  decide

/-- C2: a video asset whose transcription was skipped by the duration
guard and for which the dedup lookup finds a match (for a video, phash is
never computed, so any match is the exact sha256 one) is assigned the
duplicate status and routed to the duplicates holding folder — never to
`transcribe_later` — and a DuplicateLink row is created.  The code spells
the spec's `possible_duplicate` status as the string
"possible_duplicates" and the `exact` method as "sha256" (spec section 9
normalizes these ad-hoc spellings). -/
theorem C2_duplicate_takes_precedence (env : Env) (schema : DriveSchema)
    (s : WorkerState) (f : FileMeta) (m : List Nat → List String) (a0 : Asset)
    (_hvid : isVideo f.mime = true)
    (hw : env.whisper = some m)
    (hdur : env.ffprobeDuration f.bytes > ((MAX_VIDEO_TRANSCRIBE_MINUTES * 60 : Nat) : ℚ))
    (hfound : s.assets.find? (fun a => a.sha256 == env.sha256F f.bytes) = some a0) :
    run_transcription env f.bytes = none
    ∧ (process_asset env schema s f).status = "possible_duplicates"
    ∧ (process_asset env schema s f).status ≠ "transcribe_later"
    ∧ (process_asset env schema s f).holding = schema.HOLDING_DUPLICATES
    ∧ DupLink.mk (process_asset env schema s f).assetId a0.assetId "sha256"
        ∈ (process_asset env schema s f).state.duplicates := by
  have hskip : run_transcription env f.bytes = none := by
    unfold run_transcription
    rw [hw]
    show (if env.ffprobeDuration f.bytes > ((MAX_VIDEO_TRANSCRIBE_MINUTES * 60 : Nat) : ℚ)
          then none else some (m f.bytes)) = (none : Option (List String))
    rw [if_pos hdur]
  have hex : findExact (env.sha256F f.bytes) s.assets = some a0.assetId := by
    unfold findExact
    rw [hfound]
    rfl
  rw [process_asset_exact env schema s f a0.assetId hex]
  refine ⟨hskip, rfl, ?_, rfl, ?_⟩
  · show ("possible_duplicates" : String) ≠ "transcribe_later"
    decide
  · simp

/-- Witness for C2: a concrete over-duration duplicate video is routed to
the duplicates holding folder with a "sha256" DuplicateLink. -/
theorem C2_witness :
    run_transcription envLongMedia fVid.bytes = none
    ∧ (process_asset envLongMedia schema0 sVid fVid).status = "possible_duplicates"
    ∧ (process_asset envLongMedia schema0 sVid fVid).status ≠ "transcribe_later"
    ∧ (process_asset envLongMedia schema0 sVid fVid).holding = schema0.HOLDING_DUPLICATES
    ∧ DupLink.mk (process_asset envLongMedia schema0 sVid fVid).assetId aVid0.assetId "sha256"
        ∈ (process_asset envLongMedia schema0 sVid fVid).state.duplicates :=
  C2_duplicate_takes_precedence envLongMedia schema0 sVid fVid
    (fun _ => ["seg"]) aVid0 (by decide) rfl (by decide) (by decide)

/-- C8 (amended): a non-duplicate video or audio asset whose probed
duration exceeds `MAX_VIDEO_TRANSCRIBE_MINUTES * 60` has its transcription
skipped entirely (`run_transcription` returns `None` before the model
would be loaded, for every possible model `m`), but only a VIDEO asset is
then routed to `transcribe_later` in the deferred-transcription holding
folder; an audio asset stays `needs_review` (worker.py line 162 tests
`mime_type.startswith("video/")` only). -/
theorem C8_duration_guard_video_only (env : Env) (schema : DriveSchema)
    (s : WorkerState) (f : FileMeta) (m : List Nat → List String)
    (hva : isVideo f.mime = true ∨ isAudio f.mime = true)
    (hw : env.whisper = some m)
    (hdur : env.ffprobeDuration f.bytes > ((MAX_VIDEO_TRANSCRIBE_MINUTES * 60 : Nat) : ℚ))
    (hex : findExact (env.sha256F f.bytes) s.assets = none) :
    run_transcription env f.bytes = none
    ∧ (process_asset env schema s f).status
        = (if isVideo f.mime then "transcribe_later" else "needs_review")
    ∧ (process_asset env schema s f).holding
        = (if isVideo f.mime then schema.HOLDING_TRANSCRIBE_LATER
           else schema.HOLDING_NEEDS_REVIEW)
    ∧ (process_asset env schema s f).state.duplicates = s.duplicates := by
  have himg : isImage f.mime = false := by
    rcases hva with h | h
    · exact not_image_of_video f.mime h
    · exact not_image_of_audio f.mime h
  have hskip : run_transcription env f.bytes = none := by
    unfold run_transcription
    rw [hw]
    show (if env.ffprobeDuration f.bytes > ((MAX_VIDEO_TRANSCRIBE_MINUTES * 60 : Nat) : ℚ)
          then none else some (m f.bytes)) = (none : Option (List String))
    rw [if_pos hdur]
  have hp : phashOf env f = none := by simp [phashOf, himg]
  have hor : (isVideo f.mime || isAudio f.mime) = true := by
    rcases hva with h | h
    · simp [h]
    · simp [h]
  have hroute : preDedupRouting env schema f
      = (if isVideo f.mime then ("transcribe_later", schema.HOLDING_TRANSCRIBE_LATER)
         else ("needs_review", schema.HOLDING_NEEDS_REVIEW)) := by
    unfold preDedupRouting
    rw [hor]
    simp [hskip]
  rw [process_asset_noDup env schema s f hex (fun p h => by rw [hp] at h; cases h)]
  refine ⟨hskip, ?_, ?_, rfl⟩
  · show (preDedupRouting env schema f).1 = _
    rw [hroute]
    cases isVideo f.mime <;> rfl
  · show (preDedupRouting env schema f).2 = _
    rw [hroute]
    cases isVideo f.mime <;> rfl

/-- Witness for C8 (amended): a concrete over-duration non-duplicate
video is routed to `transcribe_later` without the transcriber running. -/
theorem C8_witness :
    run_transcription envLongMedia fVid.bytes = none
    ∧ (process_asset envLongMedia schema0 emptyState fVid).status
        = (if isVideo fVid.mime then "transcribe_later" else "needs_review")
    ∧ (process_asset envLongMedia schema0 emptyState fVid).holding
        = (if isVideo fVid.mime then schema0.HOLDING_TRANSCRIBE_LATER
           else schema0.HOLDING_NEEDS_REVIEW)
    ∧ (process_asset envLongMedia schema0 emptyState fVid).state.duplicates
        = emptyState.duplicates :=
  C8_duration_guard_video_only envLongMedia schema0 emptyState fVid
    (fun _ => ["seg"]) (Or.inl (by decide)) rfl (by decide) rfl

/-- Counterexample to C8 as stated: an over-duration AUDIO asset (481 s
with an 8-minute ceiling, whisper importable, no duplicate) has its
transcription skipped by the duration guard, yet it is routed to
`needs_review`, not `transcribe_later`. -/
theorem C8_counterexample :
    isAudio fAud.mime = true
    ∧ envLongMedia.ffprobeDuration fAud.bytes
        > ((MAX_VIDEO_TRANSCRIBE_MINUTES * 60 : Nat) : ℚ)
    ∧ run_transcription envLongMedia fAud.bytes = none
    ∧ (process_asset envLongMedia schema0 emptyState fAud).status = "needs_review"
    ∧ (process_asset envLongMedia schema0 emptyState fAud).status ≠ "transcribe_later"
    ∧ (process_asset envLongMedia schema0 emptyState fAud).holding
        = schema0.HOLDING_NEEDS_REVIEW := by
  decide

/-- C4 (code bug evaluation): the stored image has phash
"0000000000000000" and the incoming image phashes to "ff00000000000000".
Their bit Hamming distance is 8, strictly above the configured threshold
`PHASH_DUPLICATE_THRESHOLD = 6`, so per the spec no near link may be
created — yet the worker compares hex-string CHARACTERS (2 differ) against
a hardcoded 6 (worker.py line 173 and 176, ignoring the config value) and
links the pair as near duplicates, also inserting the spurious second
"sha256" link of lines 182-185. -/
theorem C4_bit_distance_above_threshold_still_linked :
    specBitHamming "0000000000000000" "ff00000000000000" = 8
    ∧ 8 > PHASH_DUPLICATE_THRESHOLD
    ∧ charHamming "ff00000000000000" "0000000000000000" = 2
    ∧ (process_asset envNear schema0 sImg fImg).status = "possible_duplicates"
    ∧ (process_asset envNear schema0 sImg fImg).holding = schema0.HOLDING_DUPLICATES
    ∧ DupLink.mk 1 0 "phash" ∈ (process_asset envNear schema0 sImg fImg).state.duplicates
    ∧ (process_asset envNear schema0 sImg fImg).state.assets.length = 2 := by
  decide

/-- C3: two files with identical bytes (hence identical sha256, since the
hash is a function of the content), processed in either order from an
empty store, yield exactly two asset rows; the later-processed one
resolves to the earlier-created asset via `duplicate_of`, and exactly one
DuplicateLink row is created, with the method the code spells "sha256"
(the spec's `exact`).  Order independence: the statement is symmetric in
`f1`/`f2` — instantiating it with the files swapped shows the
later-processed file always points at the earlier-created asset, i.e. the
same target regardless of upload order. -/
theorem C3_exact_dedup_order_independent (env : Env) (schema : DriveSchema)
    (freeBytes : Nat) (f1 f2 : FileMeta)
    (hbp : has_backpressure freeBytes emptyState = false)
    (hid : (f1.driveId == f2.driveId) = false)
    (hbytes : f1.bytes = f2.bytes)
    (hf1 : env.fails f1 = false) (hf2 : env.fails f2 = false) :
    ∃ a1 a2 : Asset,
      (run_once env schema freeBytes [f1, f2] emptyState).assets = [a1, a2]
      ∧ a1.driveFileId = f1.driveId ∧ a2.driveFileId = f2.driveId
      ∧ a1.duplicateOf = none ∧ a2.duplicateOf = some a1.assetId
      ∧ (run_once env schema freeBytes [f1, f2] emptyState).duplicates
          = [DupLink.mk a2.assetId a1.assetId "sha256"] := by
  have hstep : List.foldl (processFile env schema) emptyState [f1, f2]
      = processFile env schema (processFile env schema emptyState f1) f2 := by
    rw [List.foldl_cons, List.foldl_cons, List.foldl_nil]
  have hpf1 : processFile env schema emptyState f1
      = (process_asset env schema emptyState f1).state :=
    processFile_ok env schema emptyState f1 rfl hf1
  have hpa1 : process_asset env schema emptyState f1
      = ⟨⟨[⟨0, f1.driveId, f1.mime, (preDedupRouting env schema f1).1,
            env.sha256F f1.bytes, phashOf env f1, none⟩], [], []⟩,
         (preDedupRouting env schema f1).1, (preDedupRouting env schema f1).2, 0⟩ := by
    rw [process_asset_noDup env schema emptyState f1 rfl (fun p _ => rfl)]
    rfl
  set row1 : Asset := ⟨0, f1.driveId, f1.mime, (preDedupRouting env schema f1).1,
      env.sha256F f1.bytes, phashOf env f1, none⟩ with hrow1
  set st1 : WorkerState := ⟨[row1], [], []⟩ with hst1
  have hex2 : asset_exists st1 f2.driveId = false := by
    rw [hst1]
    simp [asset_exists, hrow1, hid]
  have hfind2 : findExact (env.sha256F f2.bytes) st1.assets = some 0 := by
    have hsha : (row1.sha256 == env.sha256F f2.bytes) = true := by
      rw [hrow1]
      show (env.sha256F f1.bytes == env.sha256F f2.bytes) = true
      rw [hbytes]
      exact beq_self_eq_true _
    rw [hst1]
    unfold findExact
    rw [show (⟨[row1], [], []⟩ : WorkerState).assets = [row1] from rfl]
    simp only [List.find?, hsha]
    rfl
  have hpf2 : processFile env schema st1 f2 = (process_asset env schema st1 f2).state :=
    processFile_ok env schema st1 f2 hex2 hf2
  have hpa2 : process_asset env schema st1 f2
      = ⟨⟨[row1, ⟨1, f2.driveId, f2.mime, "possible_duplicates",
            env.sha256F f2.bytes, phashOf env f2, some 0⟩],
          [⟨1, 0, "sha256"⟩], []⟩,
         "possible_duplicates", schema.HOLDING_DUPLICATES, 1⟩ := by
    rw [process_asset_exact env schema st1 f2 0 hfind2]
    rw [hst1]
    rfl
  refine ⟨row1, ⟨1, f2.driveId, f2.mime, "possible_duplicates",
      env.sha256F f2.bytes, phashOf env f2, some 0⟩, ?_, rfl, rfl, rfl, rfl, ?_⟩
  · rw [run_once_no_bp env schema freeBytes [f1, f2] emptyState hbp, hstep]
    simp only [hpf1, hpa1, hpf2, hpa2]
  · rw [run_once_no_bp env schema freeBytes [f1, f2] emptyState hbp, hstep]
    simp only [hpf1, hpa1, hpf2, hpa2]

/-- Witness for C3: two concrete files with the same bytes and distinct
drive ids produce one original and one duplicate linked by a single
"sha256" DuplicateLink. -/
theorem C3_witness :
    ∃ a1 a2 : Asset,
      (run_once envPlain schema0 68719476736
          [⟨"d1", "x.bin", none, [5]⟩, ⟨"d2", "y.bin", none, [5]⟩] emptyState).assets
        = [a1, a2]
      ∧ a1.driveFileId = "d1" ∧ a2.driveFileId = "d2"
      ∧ a1.duplicateOf = none ∧ a2.duplicateOf = some a1.assetId
      ∧ (run_once envPlain schema0 68719476736
          [⟨"d1", "x.bin", none, [5]⟩, ⟨"d2", "y.bin", none, [5]⟩] emptyState).duplicates
        = [DupLink.mk a2.assetId a1.assetId "sha256"] :=
  C3_exact_dedup_order_independent envPlain schema0 68719476736
    ⟨"d1", "x.bin", none, [5]⟩ ⟨"d2", "y.bin", none, [5]⟩
    (by decide) (by decide) rfl rfl rfl

/-- C10: a request from a single client IP arriving when at least
`RATE_LIMIT_PER_MIN` earlier requests from that IP have timestamps within
the trailing 60 seconds is answered with 429 and not forwarded to any
endpoint handler (the result is `none` for every handler value), and the
rejected request's timestamp is not added to the rate window (the stored
window is returned unchanged).  The window after an arbitrary earlier
request sequence is `processRequests reqs`; only admitted requests'
timestamps are recorded in it, since `window.append(now)` runs after the
limit check (this is how the claim's "earlier requests ... timestamps"
are represented in the state). -/
theorem C10_rate_limit_rejects_and_records_nothing {α : Type} (handler : α)
    (reqs : List ℤ) (now : ℤ)
    (h : RATE_LIMIT_PER_MIN ≤ (pruneWindow (processRequests reqs) now).length) :
    rate_limit_middleware handler (processRequests reqs) now
      = (none, processRequests reqs) := by
  simp only [rate_limit_middleware]
  rw [if_pos h]

set_option maxRecDepth 8000 in
/-- Witness for C10: after 120 admitted requests at time 0, a request at
time 30 is rejected and the stored window is unchanged. -/
theorem C10_witness :
    RATE_LIMIT_PER_MIN
        ≤ (pruneWindow (processRequests (List.replicate 120 (0 : ℤ))) 30).length
    ∧ rate_limit_middleware true (processRequests (List.replicate 120 (0 : ℤ))) 30
        = (none, processRequests (List.replicate 120 (0 : ℤ))) :=
  ⟨by decide,
   C10_rate_limit_rejects_and_records_nothing true (List.replicate 120 (0 : ℤ)) 30
     (by decide)⟩

/-- C9 (amended): a FinishBatch call with a valid contributor token and
`len(files)` within `MAX_FILES_PER_BATCH` acknowledges with the updated
upload count, and exactly one manifest record mapping the batch id to its
files and context is written to `_manifests/<batch_id>.json` before the
acknowledgement — unless the remote-store write raises, in which case the
exception is swallowed (main.py lines 761-763, "Don't fail the batch if
manifest save fails") and the call still acknowledges with NO manifest
written.  `len(files)` above the cap fails with TooManyFiles (400) and
writes nothing. -/
theorem C9_finish_batch_manifest (contribs : List Contributor) (r2 : R2State)
    (counts : List (String × Nat)) (payload : FinishPayload) (c : Contributor)
    (hc : get_contributor_by_token contribs (payload.token.getD "") = some c) :
    (payload.files.length > MAX_FILES_PER_BATCH →
      api_batch_finish contribs r2 counts payload
        = (FinishResult.tooManyFiles, r2, counts))
    ∧ (payload.files.length ≤ MAX_FILES_PER_BATCH →
      (∃ total, (api_batch_finish contribs r2 counts payload).1 = FinishResult.ok total)
      ∧ (api_batch_finish contribs r2 counts payload).2.1.objects
          = (if r2.putFails then r2.objects
             else r2.objects ++ [("_manifests/" ++ payload.batchId ++ ".json",
                ⟨payload.batchId, payload.token, c.displayName, payload.decade,
                 payload.event, payload.notes, payload.files, payload.voiceNote⟩)])) := by
  constructor
  · intro hgt
    simp only [api_batch_finish, hc]
    rw [if_pos hgt]
  · intro hle
    have hngt : ¬ payload.files.length > MAX_FILES_PER_BATCH := not_lt.mpr hle
    simp only [api_batch_finish, hc]
    rw [if_neg hngt]
    refine ⟨⟨_, rfl⟩, ?_⟩
    cases hpf : r2.putFails with
    | true => simp [put_object, hpf]
    | false => simp [put_object, hpf]

/-- Witness for C9 (amended): with working storage, finishing a
one-file batch acknowledges and writes exactly the manifest object. -/
theorem C9_witness :
    payload1.files.length ≤ MAX_FILES_PER_BATCH
    ∧ ((∃ total, (api_batch_finish contribs1 ⟨[], false⟩ [] payload1).1
          = FinishResult.ok total)
       ∧ (api_batch_finish contribs1 ⟨[], false⟩ [] payload1).2.1.objects
          = (if (⟨[], false⟩ : R2State).putFails then ([] : List (String × Manifest))
             else [] ++ [("_manifests/" ++ payload1.batchId ++ ".json",
                ⟨payload1.batchId, payload1.token, "Ann", payload1.decade,
                 payload1.event, payload1.notes, payload1.files, payload1.voiceNote⟩)])) :=
  ⟨by decide,
   (C9_finish_batch_manifest contribs1 ⟨[], false⟩ [] payload1
      ⟨"tok1", "Ann", "active"⟩ (by decide)).2 (by decide)⟩

/-- Counterexample to C9 as stated: with a valid token and one file
(within the cap) but a raising remote-store write, the call still
acknowledges (`ok 1`) while NO manifest record has been written — the
durable manifest write is not guaranteed before acknowledgement. -/
theorem C9_counterexample :
    (api_batch_finish contribs1 ⟨[], true⟩ [] payload1).1 = FinishResult.ok 1
    ∧ (api_batch_finish contribs1 ⟨[], true⟩ [] payload1).2.1.objects = [] := by
  decide

/-- C1 (amended): the chunk-upload handler performs no offset bookkeeping
at all.  For ANY input it never answers with the resumable protocol's
`Resume`/308 response (first conjunct, no hypotheses); and on a valid
session with a parsed `Content-Range`, when the store accepts the part,
the chunk is always APPLIED — uploaded as part `start / 5MiB + 1` and
appended to the in-memory session's part list — regardless of whether its
start matches the bytes already received (the handler never reads any
committed offset and never probes the store): a non-final chunk answers
`ok` with the part recorded, a final one (`end + 1 >= total`) completes
the upload or, if completion raises, still answers `ok`.  Session state
lives only in the process-local `_UPLOAD_SESSIONS` map (main.py line 48);
nothing is persisted durably. -/
theorem C1_no_resume_chunk_always_applied (uo co : Bool)
    (sessions : List (String × UploadSession)) (sessionId : Option String)
    (contentRange : Option ContentRange) (etag : String) :
    (∀ o, (api_upload_chunk uo co sessions sessionId contentRange etag).1
        ≠ ChunkResponse.resume o)
    ∧ (∀ sid session cr,
        sessionId = some sid → contentRange = some cr →
        lookupSession sessions sid = some session → uo = true →
        ((cr.stop + 1 < cr.total →
           api_upload_chunk uo co sessions sessionId contentRange etag
             = (ChunkResponse.ok (cr.start / CHUNK_SIZE + 1),
                storeSession sessions sid ⟨session.uploadId, session.objectKey,
                  session.sizeBytes,
                  session.parts ++ [⟨cr.start / CHUNK_SIZE + 1, etag⟩]⟩))
         ∧ (cr.total ≤ cr.stop + 1 →
           (api_upload_chunk uo co sessions sessionId contentRange etag).1
             = ChunkResponse.complete session.objectKey
           ∨ (api_upload_chunk uo co sessions sessionId contentRange etag).1
             = ChunkResponse.ok (cr.start / CHUNK_SIZE + 1)))) := by
  constructor
  · intro o
    unfold api_upload_chunk
    rcases sessionId with _ | sid
    · simp
    · rcases hls : lookupSession sessions sid with _ | sess
      · simp [hls]
      · rcases contentRange with _ | cr
        · cases uo <;> simp [hls]
        · cases uo <;> cases co <;> by_cases h : cr.total ≤ cr.stop + 1 <;> simp [hls, h]
  · intro sid session cr hsid hcr hls huo
    subst hsid
    subst hcr
    subst huo
    unfold api_upload_chunk
    simp only [hls]
    constructor
    · intro hlt
      have hnge : ¬ cr.total ≤ cr.stop + 1 := not_le.mpr hlt
      simp [hnge]
    · intro hge
      cases co <;> simp [hge]

/-- Witness for C1 (amended): a concrete non-final chunk on a valid
session is applied and answered `ok` with its part recorded. -/
theorem C1_witness :
    api_upload_chunk true true [("sid1", sess1)] (some "sid1")
        (some ⟨5242880, 10485759, 12582912⟩) "e2"
      = (ChunkResponse.ok 2,
         storeSession [("sid1", sess1)] "sid1"
           ⟨sess1.uploadId, sess1.objectKey, sess1.sizeBytes,
            sess1.parts ++ [⟨2, "e2"⟩]⟩) :=
  ((C1_no_resume_chunk_always_applied true true [("sid1", sess1)] (some "sid1")
      (some ⟨5242880, 10485759, 12582912⟩) "e2").2 "sid1" sess1
      ⟨5242880, 10485759, 12582912⟩ rfl rfl (by decide) rfl).1 (by decide)

/-- Counterexample to C1 as stated: the session has already received part
1 (bytes 0 to 5242879, so every sensible committed offset is 5242880),
yet a chunk whose byte range starts at 0 — a mismatch — is NOT answered
with `Resume(5242880)` after a status probe, and the mismatched chunk IS
applied: the handler re-uploads it as part 1, appends it to the session
and answers `ok`. -/
theorem C1_counterexample :
    (api_upload_chunk true true [("sid1", sess1)] (some "sid1")
        (some ⟨0, 5242879, 12582912⟩) "e2").1 = ChunkResponse.ok 1
    ∧ (api_upload_chunk true true [("sid1", sess1)] (some "sid1")
        (some ⟨0, 5242879, 12582912⟩) "e2").1 ≠ ChunkResponse.resume 5242880
    ∧ lookupSession (api_upload_chunk true true [("sid1", sess1)] (some "sid1")
        (some ⟨0, 5242879, 12582912⟩) "e2").2 "sid1"
      = some ⟨"up1", "obj1", 12582912, [⟨1, "e1"⟩, ⟨1, "e2"⟩]⟩ := by
  decide

end Vault
